import Mathlib

/-!
Shallow embedding of the layout comparison tool
(`tools/compare-figma-layout.js` and its companion Figma data extractor)
of the nextjs-figma-playwright-wsl-template repository.

JavaScript numbers are modelled as rationals (ℚ): every arithmetic
operation the tool performs on coordinates (addition, subtraction,
absolute value, comparison, variance with division by 4 and by 200)
is exact on the inputs it receives, so ℚ is a faithful model.
JavaScript strings are modelled as `String`, except in the CLI
argument parser where `List Char` is used so that `split('=')`
can be reasoned about directly.
`Array.prototype.sort` with comparator `(a, b) => a.y - b.y` is a
stable ascending sort; it is modelled by `List.insertionSort` with
the corresponding `≤` relation, which is also stable and ascending,
hence produces the same output list.
-/

namespace CompareFigmaLayout

/-- A bounding box `{x, y, width, height}` as produced by both adapters. -/
structure Bounds where
  x : ℚ
  y : ℚ
  width : ℚ
  height : ℚ
deriving DecidableEq, Repr, Inhabited

/-- One visual element `{id, bounds, type}`. -/
structure Element where
  id : String
  bounds : Bounds
  type : String
deriving DecidableEq, Repr, Inhabited

/-- The record returned by `FigmaExtractor.extractLayout`:
`{nodeId, elements, pattern, confidence}`. -/
structure FigmaLayout where
  nodeId : String
  elements : List Element
  pattern : String
  confidence : ℚ
deriving DecidableEq, Repr

/-- The record returned by `PlaywrightExtractor.extractLayout`:
`{url, selector, elements, pattern, confidence}`. -/
structure PlaywrightLayout where
  url : String
  selector : String
  elements : List Element
  pattern : String
  confidence : ℚ
deriving DecidableEq, Repr

/-- The `details.elementCount` sub-record of a comparison result. -/
structure CountDetail where
  «match» : Bool
  expected : Nat
  actual : Nat
deriving DecidableEq, Repr

/-- The `details.pattern` sub-record of a comparison result. -/
structure PatternDetail where
  «match» : Bool
  expected : String
  actual : String
deriving DecidableEq, Repr

/-- The `details` record of a comparison result. -/
structure Details where
  elementCount : CountDetail
  pattern : PatternDetail
deriving DecidableEq, Repr

/-- The record returned by `LayoutComparator.compareLayouts`. -/
structure ComparisonResult where
  «match» : Bool
  figma : FigmaLayout
  playwright : PlaywrightLayout
  details : Details
  confidence : ℚ
deriving DecidableEq, Repr

/-! ### PlaywrightExtractor.detectLayoutPattern -/

/-- The per-element record built at the top of `detectLayoutPattern`:
`{x, y, centerX, centerY}`. -/
structure Pos where
  x : ℚ
  y : ℚ
  centerX : ℚ
  centerY : ℚ
deriving DecidableEq, Repr, Inhabited

/-- Source: `elements.map(el => ({x, y, centerX, centerY}))`. -/
def positionsOf (elements : List Element) : List Pos :=
  elements.map fun el =>
    { x := el.bounds.x
      y := el.bounds.y
      centerX := el.bounds.x + el.bounds.width / 2
      centerY := el.bounds.y + el.bounds.height / 2 }

/-- Source: `[...positions].sort((a, b) => a.y - b.y)`: stable ascending sort on `y`. -/
def sortPosByY (positions : List Pos) : List Pos :=
  List.insertionSort (fun a b => a.y ≤ b.y) positions

/-- Source: `[...].sort((a, b) => a.x - b.x)`: stable ascending sort on `x`. -/
def sortPosByX (positions : List Pos) : List Pos :=
  List.insertionSort (fun a b => a.x ≤ b.x) positions

/-- Source: `topRow = sortedByY.slice(0, 2)`. -/
def topRowOf (sortedByY : List Pos) : List Pos := sortedByY.take 2

/-- Source: `bottomRow = sortedByY.slice(2, 4)`. -/
def bottomRowOf (sortedByY : List Pos) : List Pos := (sortedByY.drop 2).take 2

/-- The row-alignment test of the 2x2 check:
`topYDiff < tolerance && bottomYDiff < tolerance` with `tolerance = 50`. -/
abbrev gridRowsAligned (sortedByY : List Pos) : Prop :=
  |((topRowOf sortedByY).getD 0 default).y - ((topRowOf sortedByY).getD 1 default).y| < 50 ∧
  |((bottomRowOf sortedByY).getD 0 default).y - ((bottomRowOf sortedByY).getD 1 default).y| < 50

/-- The column-alignment test of the 2x2 check, after each row is sorted by
`x`: `leftXDiff < tolerance && rightXDiff < tolerance`. -/
abbrev gridColsAligned (sortedByY : List Pos) : Prop :=
  |((sortPosByX (topRowOf sortedByY)).getD 0 default).x -
      ((sortPosByX (bottomRowOf sortedByY)).getD 0 default).x| < 50 ∧
  |((sortPosByX (topRowOf sortedByY)).getD 1 default).x -
      ((sortPosByX (bottomRowOf sortedByY)).getD 1 default).x| < 50

/-- The tail of `detectLayoutPattern` reached when the 2x2-grid checks fail:
the single-column check, then the single-row check, then `"scattered"`.
`leftmostX` is `sortedByX[0].x` and `topmostY` is `sortedByY[0].y`;
both index accesses are only reached with four positions present. -/
def detectLinearPattern (positions sortedByY : List Pos) : String :=
  if ∀ p ∈ positions, |p.x - ((sortPosByX positions).getD 0 default).x| < 50 then
    "1x4-vertical"
  else if ∀ p ∈ positions, |p.y - (sortedByY.getD 0 default).y| < 50 then
    "4x1-horizontal"
  else
    "scattered"

/-- Source: `PlaywrightExtractor.detectLayoutPattern`.  Returns `"unknown"` unless
exactly four elements are given; otherwise sorts positions by `y`,
splits them into top and bottom rows, and checks the 2x2-grid row and
column alignments with the 50-pixel tolerance before falling through to
the single-column / single-row checks. -/
def detectLayoutPattern (elements : List Element) : String :=
  if elements.length ≠ 4 then "unknown"
  else if gridRowsAligned (sortPosByY (positionsOf elements)) then
    if gridColsAligned (sortPosByY (positionsOf elements)) then "2x2-grid"
    else detectLinearPattern (positionsOf elements) (sortPosByY (positionsOf elements))
  else detectLinearPattern (positionsOf elements) (sortPosByY (positionsOf elements))

/-! ### PlaywrightExtractor.calculateConfidence -/

/-- The per-element record built in `calculateConfidence`:
`{x, y, width, height}`. -/
structure SizeInfo where
  x : ℚ
  y : ℚ
  width : ℚ
  height : ℚ
deriving DecidableEq, Repr, Inhabited

/-- Source: `PlaywrightExtractor.calculateVariance`: population variance,
`mean = Σv / n` then `Σ(v - mean)² / n`.  (In ℚ, division by a zero
length yields 0; the tool only calls this with four values.) -/
def calculateVariance (values : List ℚ) : ℚ :=
  let mean := values.sum / (values.length : ℚ)
  let squaredDiffs := values.map fun v => (v - mean) ^ 2
  squaredDiffs.sum / (values.length : ℚ)

/-- The `positions` array built in `calculateConfidence`. -/
def sizeInfoOf (elements : List Element) : List SizeInfo :=
  elements.map fun el =>
    SizeInfo.mk el.bounds.x el.bounds.y el.bounds.width el.bounds.height

/-- Source: `widths = positions.map(p => p.width)`. -/
def widthsOf (elements : List Element) : List ℚ :=
  (sizeInfoOf elements).map fun p => p.width

/-- Source: `heights = positions.map(p => p.height)`. -/
def heightsOf (elements : List Element) : List ℚ :=
  (sizeInfoOf elements).map fun p => p.height

/-- Source: `PlaywrightExtractor.calculateConfidence`: `0.0` unless exactly four
elements; otherwise `min(0.95, max(0.5, max(0, 1 - (varW + varH) / (2*100))))`
where `varW`, `varH` are the variances of the widths and heights and
`100` is `maxExpectedVariance`. -/
def calculateConfidence (elements : List Element) : ℚ :=
  if elements.length ≠ 4 then 0
  else
    min 0.95 (max 0.5 (max 0 (1 -
      (calculateVariance (widthsOf elements) + calculateVariance (heightsOf elements)) /
        (2 * 100))))

/-! ### FigmaExtractor -/

/-- The cache artifact `figma-layout-cache.json` as parsed by
`FigmaExtractor.extractLayout`:
`{nodeId, elements, pattern, confidence, timestamp}`. -/
structure FigmaCache where
  nodeId : String
  elements : List Element
  pattern : String
  confidence : ℚ
  timestamp : String
deriving DecidableEq, Repr

/-- The minimum of a list of rationals, or `none` for the empty list.
JavaScript starts the fold at `Infinity`; with no elements the minimum
stays `Infinity`, for which the `min < 0` test is false — `none` models
that case. -/
def minOf : List ℚ → Option ℚ
  | [] => none
  | v :: vs => some (vs.foldl min v)

/-- Source: `min < 0 ? Math.abs(min) + margin : 0` (false on `Infinity`, i.e. `none`). -/
def offsetOf (m : Option ℚ) (margin : ℚ) : ℚ :=
  match m with
  | none => 0
  | some v => if v < 0 then |v| + margin else 0

/-- Source: `offsetX = minX < 0 ? Math.abs(minX) + 300 : 0`. -/
def offsetXOf (elements : List Element) : ℚ :=
  offsetOf (minOf (elements.map fun el => el.bounds.x)) 300

/-- Source: `offsetY = minY < 0 ? Math.abs(minY) + 120 : 0`. -/
def offsetYOf (elements : List Element) : ℚ :=
  offsetOf (minOf (elements.map fun el => el.bounds.y)) 120

/-- Source: `FigmaExtractor.normalizeFigmaCoordinates`: shift every rectangle's
`x`/`y` by the offsets, keeping width and height. -/
def normalizeFigmaCoordinates (elements : List Element) : List Element :=
  elements.map fun el =>
    { el with bounds := { x := el.bounds.x + offsetXOf elements
                          y := el.bounds.y + offsetYOf elements
                          width := el.bounds.width
                          height := el.bounds.height } }

/-- The hard-coded fallback snapshot returned by `FigmaExtractor.extractLayout`
when no usable cache exists: four 490×300 chart rectangles in a 2×2 grid,
pattern `"2x2-grid"`, confidence `0.95`. -/
def fallbackLayout (nodeId : String) : FigmaLayout :=
  { nodeId := nodeId
    elements := [
      ⟨"cpi-chart", ⟨300, 120, 490, 300⟩, "chart"⟩,
      ⟨"unemployment-chart", ⟨810, 120, 490, 300⟩, "chart"⟩,
      ⟨"interest-rates-chart", ⟨300, 440, 490, 300⟩, "chart"⟩,
      ⟨"inflation-chart", ⟨810, 440, 490, 300⟩, "chart"⟩]
    pattern := "2x2-grid"
    confidence := 0.95 }

/-- Source: `FigmaExtractor.extractLayout`: if the cache file exists (`some`) and its
`nodeId` equals the requested one, return its elements (normalized) with its
recorded pattern and confidence; otherwise return the fallback snapshot. -/
def extractLayout (cache : Option FigmaCache) (nodeId : String) : FigmaLayout :=
  match cache with
  | some cachedData =>
    if cachedData.nodeId = nodeId then
      { nodeId := nodeId
        elements := normalizeFigmaCoordinates cachedData.elements
        pattern := cachedData.pattern
        confidence := cachedData.confidence }
    else fallbackLayout nodeId
  | none => fallbackLayout nodeId

/-! ### LayoutComparator.compareLayouts and the CLI exit code -/

/-- Source: `LayoutComparator.compareLayouts`: element-count equality and pattern
equality, their conjunction as the overall match, and the minimum of the
two confidences. -/
def compareLayouts (figmaLayout : FigmaLayout) (playwrightLayout : PlaywrightLayout) :
    ComparisonResult :=
  let elementCountMatch := figmaLayout.elements.length == playwrightLayout.elements.length
  let patternMatch := figmaLayout.pattern == playwrightLayout.pattern
  let overallMatch := elementCountMatch && patternMatch
  { «match» := overallMatch
    figma := figmaLayout
    playwright := playwrightLayout
    details :=
      { elementCount :=
          { «match» := elementCountMatch
            expected := figmaLayout.elements.length
            actual := playwrightLayout.elements.length }
        pattern :=
          { «match» := patternMatch
            expected := figmaLayout.pattern
            actual := playwrightLayout.pattern } }
    confidence := min figmaLayout.confidence playwrightLayout.confidence }

/-- The exit-code logic of `main`: on a successful `compare()` run, exit
`result.match ? 0 : 1`; on any propagated error, exit 2. -/
def mainExitCode (result : Except String ComparisonResult) : Nat :=
  match result with
  | Except.ok r => if r.«match» then 0 else 1
  | Except.error _ => 2

/-! ### Companion extractor: detectFigmaPattern -/

/-- The size filter of `detectFigmaPattern`:
`elements.filter(el => el.bounds.width > 200 && el.bounds.height > 100)`. -/
def chartElementsOf (elements : List Element) : List Element :=
  elements.filter fun el => decide (200 < el.bounds.width ∧ 100 < el.bounds.height)

/-- Source: `[...chartElements].sort((a, b) => a.bounds.y - b.bounds.y)`. -/
def sortElementsByY (elements : List Element) : List Element :=
  List.insertionSort (fun a b => a.bounds.y ≤ b.bounds.y) elements

/-- The row-grouping loop of `detectFigmaPattern`.  The current row is
carried as `lastEl` (its last element) plus `revRow` (its earlier elements,
reversed); an element within 50 of `lastEl.bounds.y` joins the row,
otherwise the row is emitted and a new one starts. -/
def groupRowsGo (revRow : List Element) (lastEl : Element) :
    List Element → List (List Element)
  | [] => [(lastEl :: revRow).reverse]
  | el :: rest =>
    if |el.bounds.y - lastEl.bounds.y| < 50 then
      groupRowsGo (lastEl :: revRow) el rest
    else
      (lastEl :: revRow).reverse :: groupRowsGo [] el rest

/-- Row grouping over the `y`-sorted element list; the loop starts with
`currentRow = [sortedByY[0]]`, so the empty list yields no rows (the code
only reaches the loop with a non-empty list). -/
def groupRows : List Element → List (List Element)
  | [] => []
  | e :: rest => groupRowsGo [] e rest

/-- The rows computed inside `detectFigmaPattern`: size-filter, sort by `y`,
group with the 50-unit tolerance. -/
def figmaRows (elements : List Element) : List (List Element) :=
  groupRows (sortElementsByY (chartElementsOf elements))

/-- Source: `detectFigmaPattern`: returns the pattern together with the filtered
chart elements.  Empty filter result gives `"unknown"`; 2 rows × 2 columns
gives `"2x2-grid"`; 4 rows × 1 gives `"1x4-vertical"`; 1 row × 4 gives
`"4x1-horizontal"`; anything else `"scattered"`. -/
def detectFigmaPattern (elements : List Element) : String × List Element :=
  if (chartElementsOf elements).length = 0 then ("unknown", [])
  else if (figmaRows elements).length = 2 ∧
      ((figmaRows elements).getD 0 []).length = 2 ∧
      ((figmaRows elements).getD 1 []).length = 2 then
    ("2x2-grid", chartElementsOf elements)
  else if (figmaRows elements).length = 4 ∧ ∀ r ∈ figmaRows elements, r.length = 1 then
    ("1x4-vertical", chartElementsOf elements)
  else if (figmaRows elements).length = 1 ∧ ((figmaRows elements).getD 0 []).length = 4 then
    ("4x1-horizontal", chartElementsOf elements)
  else
    ("scattered", chartElementsOf elements)

/-! ### loadConfig: CLI argument parsing

Arguments are modelled as `List Char` so that `split('=')` is a plain
recursive function amenable to proof. -/

/-- Source: `String.prototype.split('=')`: cut the character list at every `'='`. -/
def splitEq : List Char → List (List Char)
  | [] => [[]]
  | c :: cs =>
    if c = '=' then [] :: splitEq cs
    else
      match splitEq cs with
      | [] => [[c]]
      | p :: ps => (c :: p) :: ps

/-- Source: `String.prototype.startsWith(pre)` on character lists. -/
def startsWith : List Char → List Char → Bool
  | [], _ => true
  | _ :: _, [] => false
  | p :: ps, c :: cs => p == c && startsWith ps cs

/-- The configuration record built by `loadConfig` (the fields the CLI
arguments can touch, plus the remaining defaulted fields). -/
structure CLIConfig where
  figmaNodeId : List Char
  playwrightUrl : List Char
  elementSelector : List Char
  expectedPattern : List Char
  tolerance : ℚ
  debug : Bool
deriving DecidableEq, Repr

/-- Source: `DEFAULT_CONFIG`. -/
def defaultConfig : CLIConfig :=
  { figmaNodeId := "22:21".toList
    playwrightUrl := "http://localhost:3001".toList
    elementSelector := ".ds-panel".toList
    expectedPattern := "2x2-grid".toList
    tolerance := 0.1
    debug := false }

/-- The body of the `args.forEach` loop in `loadConfig`: recognized flags
overwrite their field with `arg.split('=')[1]`; `--debug` sets the flag;
anything else is ignored. -/
def applyArg (config : CLIConfig) (arg : List Char) : CLIConfig :=
  if startsWith "--figma=".toList arg then
    { config with figmaNodeId := (splitEq arg).getD 1 [] }
  else if startsWith "--url=".toList arg then
    { config with playwrightUrl := (splitEq arg).getD 1 [] }
  else if startsWith "--selector=".toList arg then
    { config with elementSelector := (splitEq arg).getD 1 [] }
  else if arg = "--debug".toList then
    { config with debug := true }
  else config

/-- The CLI-override stage of `loadConfig`, folded over the argument list
starting from the merged defaults/config-file record. -/
def loadConfigArgs (args : List (List Char)) (config : CLIConfig) : CLIConfig :=
  args.foldl applyArg config

/-! ### Concrete fixtures used to exercise the definitions -/

/-- A live snapshot agreeing with the fallback Figma snapshot. -/
def agreeingPlaywrightLayout : PlaywrightLayout :=
  { url := "http://localhost:3001"
    selector := ".ds-panel"
    elements := (fallbackLayout "22:21").elements
    pattern := "2x2-grid"
    confidence := 0.9 }

/-- A live snapshot disagreeing with the fallback Figma snapshot. -/
def disagreeingPlaywrightLayout : PlaywrightLayout :=
  { url := "http://localhost:3001"
    selector := ".ds-panel"
    elements := []
    pattern := "unknown"
    confidence := 0 }

/-- A comparison run that matches. -/
def matchedResult : ComparisonResult :=
  compareLayouts (fallbackLayout "22:21") agreeingPlaywrightLayout

/-- A comparison run that mismatches. -/
def mismatchedResult : ComparisonResult :=
  compareLayouts (fallbackLayout "22:21") disagreeingPlaywrightLayout

/-- A cache artifact whose coordinates are all non-negative. -/
def sampleCache : FigmaCache :=
  { nodeId := "22:21"
    elements := [
      ⟨"chart-0", ⟨0, 10, 490, 300⟩, "chart"⟩,
      ⟨"chart-1", ⟨510, 0, 490, 300⟩, "chart"⟩]
    pattern := "2x2-grid"
    confidence := 0.95
    timestamp := "2025-06-01T00:00:00.000Z" }

/-- The four chart frames of the sample Figma metadata in the companion
extractor (nodes 22:22 to 22:25). -/
def sampleFigmaElements : List Element :=
  [⟨"22:22", ⟨300, 120, 490, 300⟩, "frame"⟩,
   ⟨"22:23", ⟨810, 120, 490, 300⟩, "frame"⟩,
   ⟨"22:24", ⟨300, 440, 490, 300⟩, "frame"⟩,
   ⟨"22:25", ⟨810, 440, 490, 300⟩, "frame"⟩]

/-- Four rectangles whose `x` coordinates and whose `y` coordinates are all
pairwise within less than 50 of one another. -/
def coincidentElements : List Element :=
  [⟨"element-0", ⟨10, 20, 300, 200⟩, "detected"⟩,
   ⟨"element-1", ⟨30, 25, 310, 205⟩, "detected"⟩,
   ⟨"element-2", ⟨12, 60, 305, 210⟩, "detected"⟩,
   ⟨"element-3", ⟨45, 55, 295, 198⟩, "detected"⟩]

/-! ### Helper lemmas -/

lemma exists_four_of_length {α : Type} {l : List α} (h : l.length = 4) :
    ∃ a b c d, l = [a, b, c, d] := by
  rcases l with _ | ⟨a, _ | ⟨b, _ | ⟨c, _ | ⟨d, _ | ⟨e, t⟩⟩⟩⟩⟩
  · simp at h
  · simp at h
  · simp at h
  · simp at h
  · exact ⟨a, b, c, d, rfl⟩
  · simp at h

lemma foldl_min_nonneg {v : ℚ} {vs : List ℚ} (hv : 0 ≤ v) (hvs : ∀ u ∈ vs, 0 ≤ u) :
    0 ≤ vs.foldl min v := by
  induction vs generalizing v with
  | nil => exact hv
  | cons u us ih =>
    exact ih (le_min hv (hvs u (List.mem_cons_self u us)))
      (fun w hw => hvs w (List.mem_cons_of_mem u hw))

lemma offsetOf_minOf_nonneg {vs : List ℚ} (h : ∀ v ∈ vs, 0 ≤ v) (margin : ℚ) :
    offsetOf (minOf vs) margin = 0 := by
  cases vs with
  | nil => rfl
  | cons v vs' =>
    have h0 : 0 ≤ vs'.foldl min v :=
      foldl_min_nonneg (h v (List.mem_cons_self v vs'))
        (fun u hu => h u (List.mem_cons_of_mem v hu))
    simp [minOf, offsetOf, not_lt.mpr h0]

/-! ### Claim theorems -/

/-- Claim C1: `compareLayouts` produces a result whose `match` field is true
iff the element counts agree and the pattern labels agree, and whose
`confidence` is the minimum of the two snapshot confidences. -/
theorem compareLayouts_match_iff_min_confidence
    (f : FigmaLayout) (p : PlaywrightLayout) :
    ((compareLayouts f p).«match» = true ↔
      f.elements.length = p.elements.length ∧ f.pattern = p.pattern) ∧
    (compareLayouts f p).confidence = min f.confidence p.confidence := by
  refine ⟨?_, rfl⟩
  simp [compareLayouts]

/-- Claim C2: with an element count other than 4, `detectLayoutPattern`
returns `"unknown"` and `calculateConfidence` returns `0`, regardless of
the rectangles themselves. -/
theorem classify_score_non4 (elements : List Element) (h : elements.length ≠ 4) :
    detectLayoutPattern elements = "unknown" ∧ calculateConfidence elements = 0 := by
  constructor
  · unfold detectLayoutPattern
    rw [if_pos h]
  · unfold calculateConfidence
    rw [if_pos h]

theorem classify_score_non4_witness :
    ([] : List Element).length ≠ 4 ∧
    (detectLayoutPattern [] = "unknown" ∧ calculateConfidence [] = 0) :=
  ⟨by decide, classify_score_non4 [] (by decide)⟩

/-- Claim C3: with exactly four elements, `calculateConfidence` equals
`max 0 (1 - (varWidth + varHeight) / (2 * 100))` clamped into `[0.5, 0.95]`,
where the variances are the population variances of the widths and
heights; in particular the result lies in `[0.5, 0.95]`. -/
theorem calculateConfidence_clamped_variance (elements : List Element)
    (h : elements.length = 4) :
    calculateConfidence elements =
      min 0.95 (max 0.5 (max 0 (1 -
        (calculateVariance (elements.map fun el => el.bounds.width) +
         calculateVariance (elements.map fun el => el.bounds.height)) / (2 * 100)))) ∧
    0.5 ≤ calculateConfidence elements ∧ calculateConfidence elements ≤ 0.95 := by
  have hw : widthsOf elements = elements.map fun el => el.bounds.width := by
    simp [widthsOf, sizeInfoOf, List.map_map, Function.comp]
  have hh : heightsOf elements = elements.map fun el => el.bounds.height := by
    simp [heightsOf, sizeInfoOf, List.map_map, Function.comp]
  have hne : ¬ elements.length ≠ 4 := by simp [h]
  have hf : calculateConfidence elements =
      min 0.95 (max 0.5 (max 0 (1 -
        (calculateVariance (elements.map fun el => el.bounds.width) +
         calculateVariance (elements.map fun el => el.bounds.height)) / (2 * 100)))) := by
    unfold calculateConfidence
    rw [if_neg hne, hw, hh]
  refine ⟨hf, ?_, ?_⟩
  · rw [hf]
    exact le_min (by norm_num) (le_max_left _ _)
  · rw [hf]
    exact min_le_left _ _

theorem calculateConfidence_clamped_variance_witness :
    (fallbackLayout "22:21").elements.length = 4 ∧
    (0.5 ≤ calculateConfidence (fallbackLayout "22:21").elements ∧
      calculateConfidence (fallbackLayout "22:21").elements ≤ 0.95) :=
  ⟨rfl, (calculateConfidence_clamped_variance (fallbackLayout "22:21").elements rfl).2⟩

/-- Claim C6: as a command-line entry point, the process exits 0 when the
comparison succeeds with `match = true`, 1 when it succeeds with
`match = false`, and 2 when any error propagates out of `compare()`. -/
theorem main_exit_codes (r : ComparisonResult) (e : String) :
    (r.«match» = true → mainExitCode (Except.ok r) = 0) ∧
    (r.«match» = false → mainExitCode (Except.ok r) = 1) ∧
    mainExitCode (Except.error e) = 2 := by
  refine ⟨fun h => ?_, fun h => ?_, rfl⟩ <;> simp [mainExitCode, h]

theorem main_exit_codes_witness :
    (matchedResult.«match» = true ∧ mainExitCode (Except.ok matchedResult) = 0) ∧
    (mismatchedResult.«match» = false ∧ mainExitCode (Except.ok mismatchedResult) = 1) ∧
    mainExitCode (Except.error "selector never found") = 2 :=
  ⟨⟨by decide, (main_exit_codes matchedResult "e").1 (by decide)⟩,
   ⟨by decide, (main_exit_codes mismatchedResult "e").2.1 (by decide)⟩,
   (main_exit_codes matchedResult "selector never found").2.2⟩

/-- Claim C4: four rectangles at `(0,0)`, `(500,0)`, `(0,300)`, `(500,300)`,
each 490×300, are classified `"2x2-grid"` with confidence `0.95`
(zero size variance), whatever their ids and types. -/
theorem grid_positions_classified (i1 i2 i3 i4 t1 t2 t3 t4 : String) :
    detectLayoutPattern
        [⟨i1, ⟨0, 0, 490, 300⟩, t1⟩, ⟨i2, ⟨500, 0, 490, 300⟩, t2⟩,
         ⟨i3, ⟨0, 300, 490, 300⟩, t3⟩, ⟨i4, ⟨500, 300, 490, 300⟩, t4⟩] = "2x2-grid" ∧
    calculateConfidence
        [⟨i1, ⟨0, 0, 490, 300⟩, t1⟩, ⟨i2, ⟨500, 0, 490, 300⟩, t2⟩,
         ⟨i3, ⟨0, 300, 490, 300⟩, t3⟩, ⟨i4, ⟨500, 300, 490, 300⟩, t4⟩] = 0.95 := by
  constructor
  · set_option maxRecDepth 4000 in
    norm_num [detectLayoutPattern, positionsOf, sortPosByY, sortPosByX,
      List.insertionSort, List.orderedInsert, topRowOf, bottomRowOf,
      gridRowsAligned, gridColsAligned]
  · norm_num [calculateConfidence, calculateVariance, widthsOf, heightsOf, sizeInfoOf,
      min_def, max_def]

/-- Claim C5: when no cache artifact exists, or the artifact's recorded
nodeId is not the requested one, `FigmaExtractor.extractLayout` does not
fail: it returns the fixed fallback snapshot of four 490×300 rectangles
arranged in a 2×2 grid, with pattern `"2x2-grid"` and confidence `0.95`. -/
theorem extractLayout_fallback_on_miss (cache : Option FigmaCache) (nodeId : String)
    (h : ∀ c, cache = some c → c.nodeId ≠ nodeId) :
    extractLayout cache nodeId = fallbackLayout nodeId ∧
    (extractLayout cache nodeId).pattern = "2x2-grid" ∧
    (extractLayout cache nodeId).confidence = 0.95 ∧
    (extractLayout cache nodeId).elements.length = 4 ∧
    (∀ el ∈ (extractLayout cache nodeId).elements,
      el.bounds.width = 490 ∧ el.bounds.height = 300) ∧
    detectLayoutPattern (extractLayout cache nodeId).elements = "2x2-grid" := by
  have he : extractLayout cache nodeId = fallbackLayout nodeId := by
    cases cache with
    | none => rfl
    | some c => simp [extractLayout, h c rfl]
  rw [he]
  refine ⟨rfl, rfl, rfl, rfl, ?_, ?_⟩
  · intro el hel
    simp only [fallbackLayout, List.mem_cons, List.not_mem_nil, or_false] at hel
    rcases hel with rfl | rfl | rfl | rfl <;> exact ⟨rfl, rfl⟩
  · set_option maxRecDepth 4000 in
    norm_num [fallbackLayout, detectLayoutPattern, positionsOf, sortPosByY, sortPosByX,
      List.insertionSort, List.orderedInsert, topRowOf, bottomRowOf,
      gridRowsAligned, gridColsAligned]

theorem extractLayout_fallback_on_miss_witness :
    (∀ c : FigmaCache, (none : Option FigmaCache) = some c → c.nodeId ≠ "99:99") ∧
    extractLayout none "99:99" = fallbackLayout "99:99" :=
  ⟨by simp, (extractLayout_fallback_on_miss none "99:99" (by simp)).1⟩

/-- Claim C7: with a matching nodeId and all cached coordinates
non-negative, normalization is the identity and
`FigmaExtractor.extractLayout` returns the artifact's elements unchanged,
so the cache shape round-trips. -/
theorem extractLayout_roundtrip_nonneg (c : FigmaCache) (nodeId : String)
    (hid : c.nodeId = nodeId)
    (hnn : ∀ el ∈ c.elements, 0 ≤ el.bounds.x ∧ 0 ≤ el.bounds.y) :
    normalizeFigmaCoordinates c.elements = c.elements ∧
    (extractLayout (some c) nodeId).elements = c.elements := by
  have hx0 : offsetXOf c.elements = 0 := by
    unfold offsetXOf
    refine offsetOf_minOf_nonneg ?_ 300
    intro v hv
    obtain ⟨el, hel, rfl⟩ := List.mem_map.mp hv
    exact (hnn el hel).1
  have hy0 : offsetYOf c.elements = 0 := by
    unfold offsetYOf
    refine offsetOf_minOf_nonneg ?_ 120
    intro v hv
    obtain ⟨el, hel, rfl⟩ := List.mem_map.mp hv
    exact (hnn el hel).2
  have hnorm : normalizeFigmaCoordinates c.elements = c.elements := by
    unfold normalizeFigmaCoordinates
    simp only [hx0, hy0, add_zero]
    exact List.map_id' c.elements
  refine ⟨hnorm, ?_⟩
  show (if c.nodeId = nodeId then
      ({ nodeId := nodeId
         elements := normalizeFigmaCoordinates c.elements
         pattern := c.pattern
         confidence := c.confidence } : FigmaLayout)
    else fallbackLayout nodeId).elements = c.elements
  rw [if_pos hid]
  exact hnorm

theorem extractLayout_roundtrip_nonneg_witness :
    sampleCache.nodeId = "22:21" ∧
    (∀ el ∈ sampleCache.elements, 0 ≤ el.bounds.x ∧ 0 ≤ el.bounds.y) ∧
    (extractLayout (some sampleCache) "22:21").elements = sampleCache.elements :=
  ⟨rfl, by decide,
   (extractLayout_roundtrip_nonneg sampleCache "22:21" rfl (by decide)).2⟩

/-- Claim C8: in the companion extractor, when the elements surviving the
size filter, sorted by `y` and grouped into rows under the 50-unit
tolerance, form exactly 2 rows of exactly 2 elements each,
`detectFigmaPattern` returns `"2x2-grid"`. -/
theorem detectFigmaPattern_two_rows_of_two (elements : List Element)
    (h2 : (figmaRows elements).length = 2)
    (h0 : ((figmaRows elements).getD 0 []).length = 2)
    (h1 : ((figmaRows elements).getD 1 []).length = 2) :
    (detectFigmaPattern elements).1 = "2x2-grid" := by
  have hne : ¬ (chartElementsOf elements).length = 0 := by
    intro hc
    have hnil : chartElementsOf elements = [] := List.length_eq_zero.mp hc
    unfold figmaRows at h2
    rw [hnil] at h2
    simp [sortElementsByY, List.insertionSort, groupRows] at h2
  unfold detectFigmaPattern
  rw [if_neg hne, if_pos ⟨h2, h0, h1⟩]

theorem detectFigmaPattern_two_rows_of_two_witness :
    (figmaRows sampleFigmaElements).length = 2 ∧
    ((figmaRows sampleFigmaElements).getD 0 []).length = 2 ∧
    ((figmaRows sampleFigmaElements).getD 1 []).length = 2 ∧
    (detectFigmaPattern sampleFigmaElements).1 = "2x2-grid" := by
  have h2 : (figmaRows sampleFigmaElements).length = 2 := by
    norm_num [sampleFigmaElements, figmaRows, chartElementsOf, sortElementsByY,
      List.insertionSort, List.orderedInsert, groupRows, groupRowsGo, List.filter]
  have h0 : ((figmaRows sampleFigmaElements).getD 0 []).length = 2 := by
    norm_num [sampleFigmaElements, figmaRows, chartElementsOf, sortElementsByY,
      List.insertionSort, List.orderedInsert, groupRows, groupRowsGo, List.filter]
  have h1 : ((figmaRows sampleFigmaElements).getD 1 []).length = 2 := by
    norm_num [sampleFigmaElements, figmaRows, chartElementsOf, sortElementsByY,
      List.insertionSort, List.orderedInsert, groupRows, groupRowsGo, List.filter]
  exact ⟨h2, h0, h1, detectFigmaPattern_two_rows_of_two sampleFigmaElements h2 h0 h1⟩

/-- Claim C9: four rectangles whose `x` coordinates are pairwise within
strictly less than 50 of each other and whose `y` coordinates are pairwise
within strictly less than 50 of each other are classified `"2x2-grid"`
(the grid check runs first and such coincident configurations satisfy it),
not `"1x4-vertical"` or `"4x1-horizontal"`. -/
theorem detectLayoutPattern_coincident_grid (elements : List Element)
    (hlen : elements.length = 4)
    (hx : ∀ a ∈ elements, ∀ b ∈ elements, |a.bounds.x - b.bounds.x| < 50)
    (hy : ∀ a ∈ elements, ∀ b ∈ elements, |a.bounds.y - b.bounds.y| < 50) :
    detectLayoutPattern elements = "2x2-grid" := by
  have hpos : ∀ p ∈ positionsOf elements, ∀ q ∈ positionsOf elements,
      |p.x - q.x| < 50 ∧ |p.y - q.y| < 50 := by
    intro p hp q hq
    obtain ⟨a, ha, rfl⟩ := List.mem_map.mp hp
    obtain ⟨b, hb, rfl⟩ := List.mem_map.mp hq
    exact ⟨hx a ha b hb, hy a ha b hb⟩
  have hslen : (sortPosByY (positionsOf elements)).length = 4 := by
    simp [sortPosByY, List.length_insertionSort, positionsOf, hlen]
  have hsmem : ∀ p ∈ sortPosByY (positionsOf elements), p ∈ positionsOf elements :=
    fun p hp => (List.mem_insertionSort _).mp hp
  obtain ⟨a, b, c, d, habcd⟩ := exists_four_of_length hslen
  have ha : a ∈ positionsOf elements := hsmem a (by rw [habcd]; simp)
  have hb : b ∈ positionsOf elements := hsmem b (by rw [habcd]; simp)
  have hc : c ∈ positionsOf elements := hsmem c (by rw [habcd]; simp)
  have hd : d ∈ positionsOf elements := hsmem d (by rw [habcd]; simp)
  have hrows : gridRowsAligned (sortPosByY (positionsOf elements)) := by
    rw [habcd]
    exact ⟨(hpos a ha b hb).2, (hpos c hc d hd).2⟩
  have hcols : gridColsAligned (sortPosByY (positionsOf elements)) := by
    rw [habcd]
    have htl : (sortPosByX (topRowOf [a, b, c, d])).length = 2 := by
      unfold sortPosByX
      rw [List.length_insertionSort]
      rfl
    obtain ⟨u, v, huv⟩ := List.length_eq_two.mp htl
    have hbl : (sortPosByX (bottomRowOf [a, b, c, d])).length = 2 := by
      unfold sortPosByX
      rw [List.length_insertionSort]
      rfl
    obtain ⟨w, z, hwz⟩ := List.length_eq_two.mp hbl
    have hmemtop : ∀ p ∈ sortPosByX (topRowOf [a, b, c, d]), p ∈ positionsOf elements := by
      intro p hp
      have hp2 : p ∈ topRowOf [a, b, c, d] := (List.mem_insertionSort _).mp hp
      simp only [topRowOf, List.take, List.mem_cons, List.not_mem_nil, or_false] at hp2
      rcases hp2 with rfl | rfl
      exacts [ha, hb]
    have hmembot : ∀ p ∈ sortPosByX (bottomRowOf [a, b, c, d]), p ∈ positionsOf elements := by
      intro p hp
      have hp2 : p ∈ bottomRowOf [a, b, c, d] := (List.mem_insertionSort _).mp hp
      simp only [bottomRowOf, List.drop, List.take, List.mem_cons, List.not_mem_nil,
        or_false] at hp2
      rcases hp2 with rfl | rfl
      exacts [hc, hd]
    have hu : u ∈ positionsOf elements := hmemtop u (by rw [huv]; simp)
    have hv : v ∈ positionsOf elements := hmemtop v (by rw [huv]; simp)
    have hw : w ∈ positionsOf elements := hmembot w (by rw [hwz]; simp)
    have hz : z ∈ positionsOf elements := hmembot z (by rw [hwz]; simp)
    show |((sortPosByX (topRowOf [a, b, c, d])).getD 0 default).x -
        ((sortPosByX (bottomRowOf [a, b, c, d])).getD 0 default).x| < 50 ∧
      |((sortPosByX (topRowOf [a, b, c, d])).getD 1 default).x -
        ((sortPosByX (bottomRowOf [a, b, c, d])).getD 1 default).x| < 50
    rw [huv, hwz]
    exact ⟨(hpos u hu w hw).1, (hpos v hv z hz).1⟩
  have h4 : ¬ elements.length ≠ 4 := by simp [hlen]
  unfold detectLayoutPattern
  rw [if_neg h4, if_pos hrows, if_pos hcols]

theorem detectLayoutPattern_coincident_grid_witness :
    coincidentElements.length = 4 ∧
    (∀ a ∈ coincidentElements, ∀ b ∈ coincidentElements,
      |a.bounds.x - b.bounds.x| < 50) ∧
    (∀ a ∈ coincidentElements, ∀ b ∈ coincidentElements,
      |a.bounds.y - b.bounds.y| < 50) ∧
    detectLayoutPattern coincidentElements = "2x2-grid" :=
  ⟨rfl, by norm_num [coincidentElements], by norm_num [coincidentElements],
   detectLayoutPattern_coincident_grid coincidentElements rfl
     (by norm_num [coincidentElements]) (by norm_num [coincidentElements])⟩

lemma splitEq_ne_nil (l : List Char) : splitEq l ≠ [] := by
  induction l with
  | nil => simp [splitEq]
  | cons c cs ih =>
    unfold splitEq
    by_cases hcq : c = '='
    · simp [hcq]
    · rw [if_neg hcq]
      cases hsp : splitEq cs with
      | nil => simp
      | cons p ps => simp

lemma splitEq_append (p V : List Char) (hp : '=' ∉ p) :
    splitEq (p ++ '=' :: V) = p :: splitEq V := by
  induction p with
  | nil => simp [splitEq]
  | cons c cs ih =>
    have hcq : ¬ c = '=' := fun hce => hp (by simp [hce])
    have hcs : '=' ∉ cs := fun hce => hp (List.mem_cons_of_mem _ hce)
    show splitEq (c :: (cs ++ '=' :: V)) = (c :: cs) :: splitEq V
    conv_lhs => unfold splitEq
    rw [if_neg hcq, ih hcs]

lemma splitEq_head (V : List Char) :
    (splitEq V).getD 0 [] = V.takeWhile (· != '=') := by
  induction V with
  | nil => rfl
  | cons c cs ih =>
    unfold splitEq
    by_cases hcq : c = '='
    · subst hcq
      simp [List.takeWhile_cons]
    · rw [if_neg hcq]
      cases hsp : splitEq cs with
      | nil => exact absurd hsp (splitEq_ne_nil cs)
      | cons p ps =>
        rw [hsp] at ih
        simp only [List.getD_cons_zero] at ih
        simp [List.takeWhile_cons, hcq, ih]

lemma startsWith_self_append (p s : List Char) : startsWith p (p ++ s) = true := by
  induction p with
  | nil => rfl
  | cons c cs ih => simp [startsWith, ih]

/-- Claim C10: a CLI value containing `'='` is truncated at its first `'='`
because the whole argument is split on every `'='` and only the second
token is kept: for each of `--figma=V`, `--url=V`, `--selector=V`, the
stored value is the prefix of `V` before its first `'='`. -/
theorem loadConfig_truncates_value_at_eq (V : List Char) (base : CLIConfig)
    (_hV : '=' ∈ V) :
    (loadConfigArgs ["--figma=".toList ++ V] base).figmaNodeId =
      V.takeWhile (· != '=') ∧
    (loadConfigArgs ["--url=".toList ++ V] base).playwrightUrl =
      V.takeWhile (· != '=') ∧
    (loadConfigArgs ["--selector=".toList ++ V] base).elementSelector =
      V.takeWhile (· != '=') := by
  refine ⟨?_, ?_, ?_⟩
  · show (applyArg base ("--figma=".toList ++ V)).figmaNodeId = V.takeWhile (· != '=')
    unfold applyArg
    rw [if_pos (startsWith_self_append "--figma=".toList V)]
    show (splitEq ("--figma".toList ++ '=' :: V)).getD 1 [] = V.takeWhile (· != '=')
    rw [splitEq_append "--figma".toList V (by decide)]
    exact splitEq_head V
  · show (applyArg base ("--url=".toList ++ V)).playwrightUrl = V.takeWhile (· != '=')
    unfold applyArg
    rw [if_neg (fun hcontra => Bool.noConfusion hcontra :
        ¬ startsWith "--figma=".toList ("--url=".toList ++ V) = true)]
    rw [if_pos (startsWith_self_append "--url=".toList V)]
    show (splitEq ("--url".toList ++ '=' :: V)).getD 1 [] = V.takeWhile (· != '=')
    rw [splitEq_append "--url".toList V (by decide)]
    exact splitEq_head V
  · show (applyArg base ("--selector=".toList ++ V)).elementSelector = V.takeWhile (· != '=')
    unfold applyArg
    rw [if_neg (fun hcontra => Bool.noConfusion hcontra :
        ¬ startsWith "--figma=".toList ("--selector=".toList ++ V) = true)]
    rw [if_neg (fun hcontra => Bool.noConfusion hcontra :
        ¬ startsWith "--url=".toList ("--selector=".toList ++ V) = true)]
    rw [if_pos (startsWith_self_append "--selector=".toList V)]
    show (splitEq ("--selector".toList ++ '=' :: V)).getD 1 [] = V.takeWhile (· != '=')
    rw [splitEq_append "--selector".toList V (by decide)]
    exact splitEq_head V

theorem loadConfig_truncates_value_at_eq_witness :
    '=' ∈ "http://localhost:3001/?a=b".toList ∧
    (loadConfigArgs ["--url=http://localhost:3001/?a=b".toList] defaultConfig).playwrightUrl =
      "http://localhost:3001/?a".toList := by
  constructor
  · decide
  · have h := (loadConfig_truncates_value_at_eq "http://localhost:3001/?a=b".toList
      defaultConfig (by decide)).2.1
    rw [show ("--url=http://localhost:3001/?a=b".toList : List Char) =
        "--url=".toList ++ "http://localhost:3001/?a=b".toList from by decide]
    rw [h]
    decide

end CompareFigmaLayout
